import Mathlib

/-!
Shallow embedding of the incubator monitor application (src/src/App.tsx and
the prototype variant src/unnamed/part_000). Temperatures and thresholds are
modelled as rationals; timers as natural numbers of milliseconds; the pieces
of React state that the alarm/relay/settings logic touches are modelled as
explicit records, with each handler an explicit state-transition function.
-/

namespace Incubator

/-- Three-way reading status plus the disconnected marker,
mirroring `type Status` in App.tsx. -/
inductive Status
  | LOW
  | NORMAL
  | HIGH
  | DISCONNECTED
deriving DecidableEq, Repr

/-- Alarm duration unit, mirroring `alarmDurationUnit: "seconds" | "minutes"`. -/
inductive DurationUnit
  | seconds
  | minutes
deriving DecidableEq, Repr

/-- The typed settings record, mirroring `interface AppSettings` in App.tsx. -/
structure AppSettings where
  alarmEnabled : Bool
  alarmDuration : ℕ
  alarmDurationUnit : DurationUnit
  customSoundUrl : Option String
  lowTempThreshold : ℚ
  highTempThreshold : ℚ
deriving DecidableEq, Repr

/-- The hard-coded defaults from the `useState` settings initializer. -/
def defaultSettings : AppSettings :=
  { alarmEnabled := true
    alarmDuration := 30
    alarmDurationUnit := DurationUnit.seconds
    customSoundUrl := none
    lowTempThreshold := 25
    highTempThreshold := 38 }

/-- Status classification of a numeric reading, from the temp-topic branch of
the message handler: `value < low → LOW; else value > high → HIGH; else NORMAL`. -/
def classify (settings : AppSettings) (value : ℚ) : Status :=
  if value < settings.lowTempThreshold then Status.LOW
  else if value > settings.highTempThreshold then Status.HIGH
  else Status.NORMAL

/-- The alarm-relevant mutable state: the `isAlarmActive` flag, the audio
element (playing flag and currentTime), and the pending auto-stop timeout in
milliseconds (`none` when no timeout is pending). -/
structure AlarmState where
  isAlarmActive : Bool
  audioPlaying : Bool
  audioTime : ℚ
  alarmTimer : Option ℕ
deriving DecidableEq, Repr

/-- The alarm state at startup: inactive, audio stopped, no pending timer. -/
def initialAlarmState : AlarmState :=
  { isAlarmActive := false, audioPlaying := false, audioTime := 0, alarmTimer := none }

/-- The auto-stop delay in milliseconds computed inside `triggerAlarm`:
`unit === "minutes" ? duration * 60000 : duration * 1000`. -/
def alarmDurationMs (settings : AppSettings) : ℕ :=
  match settings.alarmDurationUnit with
  | DurationUnit.minutes => settings.alarmDuration * 60000
  | DurationUnit.seconds => settings.alarmDuration * 1000

/-- Manual stop, from `stopAlarm`: clears the active flag, pauses the audio
and rewinds it, and cancels any pending auto-stop timeout. -/
def stopAlarm (_st : AlarmState) : AlarmState :=
  { isAlarmActive := false, audioPlaying := false, audioTime := 0, alarmTimer := none }

/-- Alarm trigger, from `triggerAlarm`: a no-op when the alarm is disabled or
already active; otherwise sets the active flag, starts the audio, presents one
notification (the returned Bool), and schedules the auto-stop timeout. -/
def triggerAlarm (settings : AppSettings) (st : AlarmState) : AlarmState × Bool :=
  if !settings.alarmEnabled || st.isAlarmActive then (st, false)
  else
    ({ isAlarmActive := true
       audioPlaying := true
       audioTime := st.audioTime
       alarmTimer := some (alarmDurationMs settings) }, true)

/-- The alarm-trigger effect that runs after a numeric reading is stored:
`if (temp < low || temp > high) triggerAlarm()`, otherwise nothing. -/
def tempEffect (settings : AppSettings) (st : AlarmState) (value : ℚ) : AlarmState × Bool :=
  if value < settings.lowTempThreshold ∨ value > settings.highTempThreshold then
    triggerAlarm settings st
  else (st, false)

/-- Passage of `ms` milliseconds of simulated time: a pending auto-stop
timeout that reaches zero fires its callback, which is `stopAlarm`. -/
def elapse (st : AlarmState) (ms : ℕ) : AlarmState :=
  match st.alarmTimer with
  | none => st
  | some d => if d ≤ ms then stopAlarm st else { st with alarmTimer := some (d - ms) }

/-- Remote relay state, mirroring `relayState: "ON" | "OFF"`. -/
inductive RelayState
  | ON
  | OFF
deriving DecidableEq, Repr

/-- Relay-state-topic handler of the primary variant (App.tsx line 156):
`setRelayState(payload === "ON" ? "ON" : "OFF")` — an exact, case-sensitive
string comparison. -/
def onRelayMessage (payload : String) : RelayState :=
  if payload = "ON" then RelayState.ON else RelayState.OFF

/-- The JavaScript `toUpperCase()` builtin on ASCII payloads: uppercases each
character. -/
def toUpperCase (s : String) : String :=
  String.mk (s.data.map Char.toUpper)

/-- Relay-state-topic handler of the second variant (App.tsx line 537):
`setRelayState(payload.toUpperCase() === "ON" ? "ON" : "OFF")`. -/
def onRelayMessageUpper (payload : String) : RelayState :=
  if toUpperCase payload = "ON" then RelayState.ON else RelayState.OFF

/-- The slice of component state touched by the temp-topic message handler. -/
structure AppState where
  temp : Option ℚ
  status : Status
  relayState : RelayState
  alarm : AlarmState
deriving DecidableEq, Repr

/-- Temp-topic message handling pipeline. The payload is given as the result
of `parseFloat` (`none` models NaN): a NaN parse skips the whole branch, and a
numeric value is stored, classified, and fed to the alarm-trigger effect. The
returned Bool records whether a notification was presented. -/
def onTempMessage (settings : AppSettings) (st : AppState) (parsed : Option ℚ) :
    AppState × Bool :=
  match parsed with
  | none => (st, false)
  | some value =>
    let st1 : AppState :=
      { st with temp := some value, status := classify settings value }
    let r := tempEffect settings st1.alarm value
    ({ st1 with alarm := r.1 }, r.2)

/-- Threshold constants of the prototype variant src/unnamed/part_000. -/
def LOW_TEMP : ℚ := 25

/-- Upper threshold constant of the prototype variant src/unnamed/part_000. -/
def HIGH_TEMP : ℚ := 65

/-- The `checkTemperature` function of src/unnamed/part_000: out-of-range
readings set the alarm flag (notifying only on a fresh activation, the
returned Bool), while an in-range reading unconditionally clears the flag. -/
def checkTemperature (alarmActive : Bool) (value : ℚ) : Bool × Bool :=
  if value < LOW_TEMP ∨ value > HIGH_TEMP then
    if !alarmActive then (true, true) else (alarmActive, false)
  else (false, false)

/-- A JSON value as relevant to the persisted settings object. -/
inductive JValue
  | jnum (q : ℚ)
  | jstr (s : String)
  | jbool (b : Bool)
  | jnull
deriving DecidableEq, Repr

/-- The settings object at the JSON level: every field is a raw JSON value,
with no typing enforced (JavaScript objects carry whatever was parsed). -/
structure RawSettings where
  alarmEnabled : JValue
  alarmDuration : JValue
  alarmDurationUnit : JValue
  customSoundUrl : JValue
  lowTempThreshold : JValue
  highTempThreshold : JValue
deriving DecidableEq, Repr

/-- A parsed persisted object: each settings key may be absent (`none`) or
present with an arbitrary JSON value. -/
structure ParsedSettings where
  alarmEnabled : Option JValue := none
  alarmDuration : Option JValue := none
  alarmDurationUnit : Option JValue := none
  customSoundUrl : Option JValue := none
  lowTempThreshold : Option JValue := none
  highTempThreshold : Option JValue := none
deriving DecidableEq, Repr

/-- The hard-coded defaults of the settings initializer, at the JSON level. -/
def rawDefaults : RawSettings :=
  { alarmEnabled := JValue.jbool true
    alarmDuration := JValue.jnum 30
    alarmDurationUnit := JValue.jstr "seconds"
    customSoundUrl := JValue.jnull
    lowTempThreshold := JValue.jnum 25
    highTempThreshold := JValue.jnum 38 }

/-- The settings `useState` initializer: `saved = none` models no persisted
item, `saved = some none` models a persisted string on which `JSON.parse`
throws, and `saved = some (some p)` models a successfully parsed object, which
is spread over the defaults per key (`{...defaults, ...parsed}`) with
`customSoundUrl` forced back to null. -/
def loadSettings (saved : Option (Option ParsedSettings)) : RawSettings :=
  match saved with
  | none => rawDefaults
  | some none => rawDefaults
  | some (some p) =>
    { alarmEnabled := p.alarmEnabled.getD rawDefaults.alarmEnabled
      alarmDuration := p.alarmDuration.getD rawDefaults.alarmDuration
      alarmDurationUnit := p.alarmDurationUnit.getD rawDefaults.alarmDurationUnit
      customSoundUrl := JValue.jnull
      lowTempThreshold := p.lowTempThreshold.getD rawDefaults.lowTempThreshold
      highTempThreshold := p.highTempThreshold.getD rawDefaults.highTempThreshold }

/-- The low-threshold input onChange handler: stores the parsed value with no
validation (`setSettings(s => ({...s, lowTempThreshold: parseFloat(v)}))`). -/
def setLowThreshold (s : AppSettings) (v : ℚ) : AppSettings :=
  { s with lowTempThreshold := v }

/-- The high-threshold input onChange handler: stores the parsed value with no
validation (`setSettings(s => ({...s, highTempThreshold: parseFloat(v)}))`). -/
def setHighThreshold (s : AppSettings) (v : ℚ) : AppSettings :=
  { s with highTempThreshold := v }

/-- Modelled from the spec: no HistoryBuffer exists anywhere under src/; this
follows §4.4 of the spec, "record(reading): appends; if length exceeds
capacity N, evicts from the front (oldest first)". -/
def recordReading (cap : ℕ) (buf : List ℚ) (r : ℚ) : List ℚ :=
  let b := buf ++ [r]
  if cap < b.length then b.tail else b

/-- Modelled from the spec: recording a whole sequence of readings in arrival
order into a HistoryBuffer of capacity `cap`. -/
def recordAll (cap : ℕ) (buf : List ℚ) (rs : List ℚ) : List ℚ :=
  rs.foldl (recordReading cap) buf

/-- C2: with lowTempThreshold < highTempThreshold, classification yields LOW
iff the value is strictly below the low threshold, HIGH iff strictly above the
high threshold, NORMAL otherwise; a value exactly at either threshold is
NORMAL. -/
theorem classify_spec (s : AppSettings) (v : ℚ)
    (h : s.lowTempThreshold < s.highTempThreshold) :
    (classify s v = Status.LOW ↔ v < s.lowTempThreshold) ∧
    (classify s v = Status.HIGH ↔ v > s.highTempThreshold) ∧
    (classify s v = Status.NORMAL ↔
      (s.lowTempThreshold ≤ v ∧ v ≤ s.highTempThreshold)) ∧
    classify s s.lowTempThreshold = Status.NORMAL ∧
    classify s s.highTempThreshold = Status.NORMAL := by
  have hx : ¬ s.highTempThreshold < s.lowTempThreshold := not_lt.mpr h.le
  by_cases ha : v < s.lowTempThreshold
  · have hb : ¬ s.highTempThreshold < v := by linarith
    have hna : ¬ s.lowTempThreshold ≤ v := not_le.mpr ha
    refine ⟨?_, ?_, ?_, ?_, ?_⟩ <;> simp [classify, ha, hb, hx, hna]
  · by_cases hb : s.highTempThreshold < v
    · have hnb : ¬ v ≤ s.highTempThreshold := not_le.mpr hb
      refine ⟨?_, ?_, ?_, ?_, ?_⟩ <;> simp [classify, ha, hb, hx, hnb]
    · have hA : s.lowTempThreshold ≤ v := not_lt.mp ha
      have hB : v ≤ s.highTempThreshold := not_lt.mp hb
      refine ⟨?_, ?_, ?_, ?_, ?_⟩ <;> simp [classify, ha, hb, hx, hA, hB]

/-- Witness for C2 at the default settings and the reading 10. -/
theorem classify_spec_witness :
    defaultSettings.lowTempThreshold < defaultSettings.highTempThreshold ∧
    ((classify defaultSettings 10 = Status.LOW ↔
        (10 : ℚ) < defaultSettings.lowTempThreshold) ∧
     (classify defaultSettings 10 = Status.HIGH ↔
        (10 : ℚ) > defaultSettings.highTempThreshold) ∧
     (classify defaultSettings 10 = Status.NORMAL ↔
        (defaultSettings.lowTempThreshold ≤ (10 : ℚ) ∧
         (10 : ℚ) ≤ defaultSettings.highTempThreshold)) ∧
     classify defaultSettings defaultSettings.lowTempThreshold = Status.NORMAL ∧
     classify defaultSettings defaultSettings.highTempThreshold = Status.NORMAL) :=
  ⟨by decide, classify_spec defaultSettings 10 (by decide)⟩

/-- C1: a processed reading activates the alarm exactly when it classifies as
LOW or HIGH, the alarm is enabled, and no episode is currently open; an alert
is presented exactly on such an activation, and while the alarm is already
active an out-of-range reading changes nothing and presents no second alert
(so at most one episode is ever open); with alarmEnabled false no reading ever
activates the alarm from standby. -/
theorem alarm_entry_spec (s : AppSettings) (st : AlarmState) (v : ℚ) :
    ((tempEffect s st v).1.isAlarmActive = true ↔
      (st.isAlarmActive = true ∨
        ((classify s v = Status.LOW ∨ classify s v = Status.HIGH) ∧
          s.alarmEnabled = true))) ∧
    ((tempEffect s st v).2 = true ↔
      ((classify s v = Status.LOW ∨ classify s v = Status.HIGH) ∧
        s.alarmEnabled = true ∧ st.isAlarmActive = false)) ∧
    (st.isAlarmActive = true → tempEffect s st v = (st, false)) := by
  have hiff : (classify s v = Status.LOW ∨ classify s v = Status.HIGH) ↔
      (v < s.lowTempThreshold ∨ s.highTempThreshold < v) := by
    unfold classify
    split_ifs with ha hb <;> simp_all
  unfold tempEffect triggerAlarm
  by_cases hout : v < s.lowTempThreshold ∨ s.highTempThreshold < v
  · rw [if_pos hout]
    cases hA : st.isAlarmActive <;> cases hE : s.alarmEnabled <;> simp_all
  · rw [if_neg hout]
    simp_all

/-- Witness for C1: with an episode already open, the out-of-range reading 70
is a no-op and presents no second alert. -/
theorem alarm_entry_spec_witness :
    ({ isAlarmActive := true, audioPlaying := true, audioTime := 0,
       alarmTimer := some 30000 } : AlarmState).isAlarmActive = true ∧
    tempEffect defaultSettings
      { isAlarmActive := true, audioPlaying := true, audioTime := 0,
        alarmTimer := some 30000 } 70 =
      ({ isAlarmActive := true, audioPlaying := true, audioTime := 0,
         alarmTimer := some 30000 }, false) :=
  ⟨rfl,
   (alarm_entry_spec defaultSettings
     { isAlarmActive := true, audioPlaying := true, audioTime := 0,
       alarmTimer := some 30000 } 70).2.2 rfl⟩

/-- C3: on a standby-to-active entry the auto-stop timeout is scheduled for
the converted duration (duration seconds, i.e. duration * 1000 ms, when the
unit is seconds; duration minutes, i.e. duration * 60000 ms, when minutes),
and once that much simulated time elapses the controller is back in standby
with no further input. -/
theorem auto_stop_spec (s : AppSettings) (st : AlarmState) (v : ℚ)
    (hst : st.isAlarmActive = false) (hen : s.alarmEnabled = true)
    (hout : v < s.lowTempThreshold ∨ v > s.highTempThreshold) :
    (tempEffect s st v).1.isAlarmActive = true ∧
    (tempEffect s st v).1.alarmTimer = some (alarmDurationMs s) ∧
    (s.alarmDurationUnit = DurationUnit.seconds →
      alarmDurationMs s = s.alarmDuration * 1000) ∧
    (s.alarmDurationUnit = DurationUnit.minutes →
      alarmDurationMs s = s.alarmDuration * 60000) ∧
    (elapse (tempEffect s st v).1 (alarmDurationMs s)).isAlarmActive = false ∧
    (elapse (tempEffect s st v).1 (alarmDurationMs s)).alarmTimer = none := by
  have hsec : s.alarmDurationUnit = DurationUnit.seconds →
      alarmDurationMs s = s.alarmDuration * 1000 := by
    intro hu
    simp [alarmDurationMs, hu]
  have hmin : s.alarmDurationUnit = DurationUnit.minutes →
      alarmDurationMs s = s.alarmDuration * 60000 := by
    intro hu
    simp [alarmDurationMs, hu]
  have hstep : tempEffect s st v =
      ({ isAlarmActive := true, audioPlaying := true, audioTime := st.audioTime,
         alarmTimer := some (alarmDurationMs s) }, true) := by
    unfold tempEffect triggerAlarm
    rw [if_pos hout]
    simp [hen, hst]
  refine ⟨by simp [hstep], by simp [hstep], hsec, hmin, ?_, ?_⟩ <;>
    simp [hstep, elapse, stopAlarm]

/-- Witness for C3: defaults (alarmDuration 30, unit seconds), reading 70;
the timer is 30000 ms = 30 s and elapsing it returns the controller to
standby. -/
theorem auto_stop_spec_witness :
    initialAlarmState.isAlarmActive = false ∧
    defaultSettings.alarmEnabled = true ∧
    ((70 : ℚ) < defaultSettings.lowTempThreshold ∨
      (70 : ℚ) > defaultSettings.highTempThreshold) ∧
    ((tempEffect defaultSettings initialAlarmState 70).1.isAlarmActive = true ∧
     (tempEffect defaultSettings initialAlarmState 70).1.alarmTimer =
       some (alarmDurationMs defaultSettings) ∧
     (defaultSettings.alarmDurationUnit = DurationUnit.seconds →
       alarmDurationMs defaultSettings = defaultSettings.alarmDuration * 1000) ∧
     (defaultSettings.alarmDurationUnit = DurationUnit.minutes →
       alarmDurationMs defaultSettings = defaultSettings.alarmDuration * 60000) ∧
     (elapse (tempEffect defaultSettings initialAlarmState 70).1
        (alarmDurationMs defaultSettings)).isAlarmActive = false ∧
     (elapse (tempEffect defaultSettings initialAlarmState 70).1
        (alarmDurationMs defaultSettings)).alarmTimer = none) :=
  ⟨rfl, rfl, Or.inr (by decide),
   auto_stop_spec defaultSettings initialAlarmState 70 rfl rfl
     (Or.inr (by decide))⟩

/-- C4 counterexample: in the prototype src/unnamed/part_000, the in-range
reading 30 (LOW_TEMP = 25 ≤ 30 ≤ 65 = HIGH_TEMP) processed while the alarm is
active clears the alarm flag, so an in-range reading does deactivate the
alarm in that code. -/
theorem in_range_clears_counterexample :
    LOW_TEMP ≤ (30 : ℚ) ∧ (30 : ℚ) ≤ HIGH_TEMP ∧
    (checkTemperature true 30).1 = false := by
  refine ⟨by decide, by decide, by decide⟩

/-- C4 amended: in the main controller (src/src/App.tsx) an in-range reading
leaves the alarm state unchanged and presents no alert, so there an episode
ends only by timer expiry or manual mute; in the prototype
src/unnamed/part_000, however, an in-range reading unconditionally clears the
alarm flag. -/
theorem in_range_spec (s : AppSettings) (st : AlarmState) (v w : ℚ)
    (h1 : ¬ v < s.lowTempThreshold) (h2 : ¬ v > s.highTempThreshold)
    (h3 : LOW_TEMP ≤ w) (h4 : w ≤ HIGH_TEMP) :
    tempEffect s st v = (st, false) ∧
    ∀ b : Bool, (checkTemperature b w).1 = false := by
  constructor
  · simp [tempEffect, h1, h2]
  · intro b
    simp [checkTemperature, not_lt.mpr h3, not_lt.mpr h4]

/-- Witness for C4 amended at the reading 30, default thresholds, standby. -/
theorem in_range_spec_witness :
    ¬ (30 : ℚ) < defaultSettings.lowTempThreshold ∧
    ¬ (30 : ℚ) > defaultSettings.highTempThreshold ∧
    LOW_TEMP ≤ (30 : ℚ) ∧ (30 : ℚ) ≤ HIGH_TEMP ∧
    (tempEffect defaultSettings initialAlarmState 30 = (initialAlarmState, false) ∧
     ∀ b : Bool, (checkTemperature b 30).1 = false) :=
  ⟨by decide, by decide, by decide, by decide,
   in_range_spec defaultSettings initialAlarmState 30 30
     (by decide) (by decide) (by decide) (by decide)⟩

/-- C5: stopAlarm deactivates the alarm and cancels the pending auto-stop
timeout, it is idempotent (a second call yields the same state), and after a
stop no passage of time changes the state (no further auto-stop fires). -/
theorem stopAlarm_spec (st : AlarmState) :
    stopAlarm (stopAlarm st) = stopAlarm st ∧
    (stopAlarm st).isAlarmActive = false ∧
    (stopAlarm st).alarmTimer = none ∧
    stopAlarm initialAlarmState = initialAlarmState ∧
    ∀ ms : ℕ, elapse (stopAlarm st) ms = stopAlarm st := by
  refine ⟨rfl, rfl, rfl, rfl, ?_⟩
  intro ms
  simp [stopAlarm, elapse]

/-- C6: a temp-topic message whose payload parses to NaN is dropped silently:
the stored temperature, status, relay state and alarm state are all unchanged
and no alert is presented. -/
theorem nan_dropped_spec (s : AppSettings) (st : AppState) :
    (onTempMessage s st none).1 = st ∧ (onTempMessage s st none).2 = false := by
  simp [onTempMessage]

/-- C7 counterexample: a persisted object carrying the malformed field
highTempThreshold = "oops" is spread verbatim over the defaults, so the loaded
highTempThreshold is the string "oops", not the default 38 the claim
requires. -/
theorem load_oops_counterexample :
    (loadSettings (some (some
        { highTempThreshold := some (JValue.jstr "oops") }))).highTempThreshold
      = JValue.jstr "oops" ∧
    rawDefaults.highTempThreshold = JValue.jnum 38 ∧
    JValue.jstr "oops" ≠ JValue.jnum 38 :=
  ⟨rfl, rfl, by decide⟩

/-- C7 amended: load merges the parsed object over the defaults per key:
a key absent from the persisted JSON falls back to its default, but a present
key is taken verbatim even when malformed; customSoundUrl is always reset to
null, and an unparseable (or absent) persisted value yields the full
defaults. -/
theorem load_merge_spec (p : ParsedSettings) :
    (p.highTempThreshold = none →
      (loadSettings (some (some p))).highTempThreshold =
        rawDefaults.highTempThreshold) ∧
    (∀ jv, p.highTempThreshold = some jv →
      (loadSettings (some (some p))).highTempThreshold = jv) ∧
    (p.lowTempThreshold = none →
      (loadSettings (some (some p))).lowTempThreshold =
        rawDefaults.lowTempThreshold) ∧
    (∀ jv, p.lowTempThreshold = some jv →
      (loadSettings (some (some p))).lowTempThreshold = jv) ∧
    (∀ jv, p.alarmEnabled = some jv →
      (loadSettings (some (some p))).alarmEnabled = jv) ∧
    (loadSettings (some (some p))).customSoundUrl = JValue.jnull ∧
    loadSettings (some none) = rawDefaults ∧
    loadSettings none = rawDefaults := by
  refine ⟨?_, ?_, ?_, ?_, ?_, rfl, rfl, rfl⟩ <;>
    first
      | (intro h; simp [loadSettings, h])
      | (intro jv h; simp [loadSettings, h])

/-- Witness for C7 amended: an object persisting highTempThreshold as the
string "x" and leaving lowTempThreshold absent loads "x" for the high
threshold and the default for the low one. -/
theorem load_merge_spec_witness :
    (loadSettings (some (some
        { highTempThreshold := some (JValue.jstr "x") }))).highTempThreshold =
      JValue.jstr "x" ∧
    (loadSettings (some (some
        { highTempThreshold := some (JValue.jstr "x") }))).lowTempThreshold =
      rawDefaults.lowTempThreshold :=
  ⟨(load_merge_spec { highTempThreshold := some (JValue.jstr "x") }).2.1
      (JValue.jstr "x") rfl,
   (load_merge_spec { highTempThreshold := some (JValue.jstr "x") }).2.2.1 rfl⟩

/-- C8 counterexample: writing lowTempThreshold = 50 against the default
highTempThreshold = 38 is accepted as-is — the resulting settings violate
low < high and differ from the prior valid settings, so the write was neither
rejected nor clamped. -/
theorem threshold_write_counterexample :
    ¬ ((setLowThreshold defaultSettings 50).lowTempThreshold <
        (setLowThreshold defaultSettings 50).highTempThreshold) ∧
    setLowThreshold defaultSettings 50 ≠ defaultSettings := by
  refine ⟨by decide, by decide⟩

/-- C8 amended: the threshold onChange handlers store the incoming value with
no validation whatsoever: a low-threshold write at or above the current high
threshold, or a high-threshold write at or below the current low threshold,
is accepted verbatim and leaves the settings violating low < high; the prior
settings are not retained. -/
theorem threshold_write_unvalidated (s : AppSettings) (v w : ℚ)
    (hv : s.highTempThreshold ≤ v) (hw : w ≤ s.lowTempThreshold) :
    (setLowThreshold s v).lowTempThreshold = v ∧
    (setLowThreshold s v).highTempThreshold = s.highTempThreshold ∧
    ¬ ((setLowThreshold s v).lowTempThreshold <
        (setLowThreshold s v).highTempThreshold) ∧
    (setHighThreshold s w).highTempThreshold = w ∧
    (setHighThreshold s w).lowTempThreshold = s.lowTempThreshold ∧
    ¬ ((setHighThreshold s w).lowTempThreshold <
        (setHighThreshold s w).highTempThreshold) := by
  refine ⟨rfl, rfl, ?_, rfl, rfl, ?_⟩ <;>
    simp [setLowThreshold, setHighThreshold] <;> linarith

/-- Witness for C8 amended at the defaults with writes 50 (low) and 0
(high). -/
theorem threshold_write_unvalidated_witness :
    defaultSettings.highTempThreshold ≤ (50 : ℚ) ∧
    (0 : ℚ) ≤ defaultSettings.lowTempThreshold ∧
    ((setLowThreshold defaultSettings 50).lowTempThreshold = 50 ∧
     (setLowThreshold defaultSettings 50).highTempThreshold =
       defaultSettings.highTempThreshold ∧
     ¬ ((setLowThreshold defaultSettings 50).lowTempThreshold <
         (setLowThreshold defaultSettings 50).highTempThreshold) ∧
     (setHighThreshold defaultSettings 0).highTempThreshold = 0 ∧
     (setHighThreshold defaultSettings 0).lowTempThreshold =
       defaultSettings.lowTempThreshold ∧
     ¬ ((setHighThreshold defaultSettings 0).lowTempThreshold <
         (setHighThreshold defaultSettings 0).highTempThreshold)) :=
  ⟨by decide, by decide,
   threshold_write_unvalidated defaultSettings 50 0 (by decide) (by decide)⟩

/-- C9 counterexample: the payload "on" matches "ON" case-insensitively, yet
the primary relay-state handler (exact comparison against "ON") sets the
confirmed state to OFF. -/
theorem relay_case_counterexample :
    toUpperCase "on" = "ON" ∧ onRelayMessage "on" = RelayState.OFF := by
  refine ⟨by decide, by decide⟩

/-- C9 amended: the primary relay-state handler sets the confirmed state to
ON exactly when the payload is exactly the string "ON" (case-sensitive, so
"on" and "On" yield OFF); the second handler variant uppercases the payload
first and therefore matches case-insensitively. -/
theorem relay_match_spec (p : String) :
    (onRelayMessage p = RelayState.ON ↔ p = "ON") ∧
    (onRelayMessageUpper p = RelayState.ON ↔ toUpperCase p = "ON") := by
  constructor
  · unfold onRelayMessage
    split_ifs with h <;> simp_all
  · unfold onRelayMessageUpper
    split_ifs with h <;> simp_all

/-- Helper for C10: folding recordReading at capacity 100 over any reading
sequence, starting from a buffer within capacity, leaves exactly the last 100
elements of buffer-then-readings, in order. -/
theorem recordAll_drop (rs : List ℚ) : ∀ buf : List ℚ, buf.length ≤ 100 →
    recordAll 100 buf rs = (buf ++ rs).drop (buf.length + rs.length - 100) := by
  induction rs with
  | nil =>
    intro buf h
    simp [recordAll, Nat.sub_eq_zero_of_le h]
  | cons r tl ih =>
    intro buf h
    show recordAll 100 (recordReading 100 buf r) tl = _
    have hform : recordReading 100 buf r =
        if 100 < (buf ++ [r]).length then (buf ++ [r]).tail else (buf ++ [r]) := rfl
    by_cases hlen : 100 < (buf ++ [r]).length
    · have hb : buf.length = 100 := by
        rw [List.length_append, List.length_singleton] at hlen
        omega
      obtain ⟨b, bs, rfl⟩ : ∃ b bs, buf = b :: bs := by
        cases buf with
        | nil => simp at hb
        | cons b bs => exact ⟨b, bs, rfl⟩
      have hbs : bs.length = 99 := by simpa using hb
      have hrec : recordReading 100 (b :: bs) r = bs ++ [r] := by
        rw [hform, if_pos hlen]
        rfl
      have hlen2 : (bs ++ [r]).length ≤ 100 := by
        rw [List.length_append, List.length_singleton, hbs]
      rw [hrec, ih (bs ++ [r]) hlen2]
      have e1 : (bs ++ [r]).length + tl.length - 100 = tl.length := by
        rw [List.length_append, List.length_singleton, hbs]
        omega
      have e2 : (b :: bs).length + (r :: tl).length - 100 = tl.length + 1 := by
        rw [List.length_cons, List.length_cons, hbs]
        omega
      rw [e1, e2]
      have e4 : (b :: bs) ++ r :: tl = b :: (bs ++ r :: tl) := rfl
      rw [e4, List.drop_succ_cons]
      congr 1
      simp
    · have hrec : recordReading 100 buf r = buf ++ [r] := by
        rw [hform, if_neg hlen]
      have hlen3 : (buf ++ [r]).length ≤ 100 := by
        rw [List.length_append, List.length_singleton] at hlen ⊢
        omega
      rw [hrec, ih (buf ++ [r]) hlen3]
      have e3 : (buf ++ [r]).length + tl.length - 100 =
          buf.length + (r :: tl).length - 100 := by
        rw [List.length_append, List.length_singleton, List.length_cons]
        omega
      rw [e3]
      congr 1
      simp

/-- C10: the HistoryBuffer modelled from the spec has capacity 100 with FIFO
eviction: recording any sequence of 150 readings into an empty buffer leaves
exactly the last 100 readings, in their original arrival order. -/
theorem history_fifo_spec (rs : List ℚ) (h : rs.length = 150) :
    recordAll 100 [] rs = rs.drop 50 := by
  have hgen := recordAll_drop rs [] (by simp)
  simpa [h] using hgen

/-- Witness for C10 at a concrete sequence of 150 readings. -/
theorem history_fifo_spec_witness :
    (List.replicate 150 (36 : ℚ)).length = 150 ∧
    recordAll 100 [] (List.replicate 150 (36 : ℚ)) =
      (List.replicate 150 (36 : ℚ)).drop 50 :=
  ⟨by simp, history_fifo_spec _ (by simp)⟩

end Incubator
